import Mathlib

/-!
Verification development for the notebook
`2-Intermediate/2.2-Pretrained-ResNet-Imagenet.ipynb`: a pretrained
ResNet-152 classifier is loaded in evaluation mode, an image is loaded and
converted to RGB, preprocessed (resize to shorter side 256, center-crop to
224, conversion to a `[0,1]`-scaled tensor, channel-wise standardization),
run through the model, and the argmax of the 1000-element score vector is
looked up in a label table fetched as JSON.

The definitions below embed the notebook's cells shallowly: pixel values and
scores are rationals, PIL images are total pixel functions together with
their dimensions, Python exceptions are values of an error type, and the
interpreter state (the global `img`, the model, the label table, the
autograd mode) is threaded explicitly.
-/

namespace PyConX

/-- A parsed JSON document, as produced by `json.loads`. -/
inductive JVal where
  | null : JVal
  | bool : Bool → JVal
  | num : ℚ → JVal
  | str : String → JVal
  | arr : List JVal → JVal
  | obj : List (String × JVal) → JVal

/-- The Python exceptions this notebook can hit at the modelled operations. -/
inductive PyErr where
  | keyError : PyErr
  | typeError : PyErr
  deriving DecidableEq

/-- Python's exception hierarchy: `KeyError` (and `IndexError`) are
subclasses of `LookupError`; `TypeError` is not. -/
def PyErr.isLookupError : PyErr → Bool
  | .keyError => true
  | .typeError => false

/-- Embeds `class_idx = json.loads(urllib.request.urlopen(url).read())`
(cell 7) on an already-parsed document: `json.loads` performs no shape
validation whatsoever, so any parsed JSON value is accepted and bound to
`class_idx` as is. -/
def loadClassIdx (doc : JVal) : Except PyErr JVal :=
  Except.ok doc

/-- The spec's error taxonomy for the Label Table Loader. -/
inductive SpecErr where
  | formatError : SpecErr
  | retrievalError : SpecErr
  deriving DecidableEq

/-- Checks that a JSON value is a `[synset_id, label]` pair of strings. -/
def checkPair : JVal → Except SpecErr (String × String)
  | .arr [.str a, .str b] => Except.ok (a, b)
  | _ => Except.error SpecErr.formatError

/-- Modelled from the spec: the Label Table Loader contract of §4.1, which
is absent from the source (`json.loads` does not validate). It requires the
document to be an object whose values are `[synset_id, label]` pairs and
"fails with a FormatError if the JSON does not match the expected shape". -/
def loadLabelTableSpec : JVal → Except SpecErr (List (String × String × String))
  | .obj kvs => kvs.mapM (fun kv => (checkPair kv.2).map (fun p => (kv.1, p.1, p.2)))
  | _ => Except.error SpecErr.formatError

/-- Python subscription `v[k]` with a string key, as used by
`class_idx[str(class_id)]` (cells 14 and 18): on a `dict` it returns the
value for the key or raises `KeyError`; on a `list` (or any other JSON
value) a string index raises `TypeError`. -/
def subscript : JVal → String → Except PyErr JVal
  | .obj kvs, k =>
    match kvs.lookup k with
    | some v => Except.ok v
    | none => Except.error PyErr.keyError
  | _, _ => Except.error PyErr.typeError

/-- The value/index pair computed by a 1-D `t.max(0)`: the maximum element
together with the index of its first occurrence (PyTorch documents that on
ties the index of the first maximal value is returned). `none` on the empty
vector (where `t.max(0)` raises). -/
def argmaxPair : List ℚ → Option (ℚ × Nat)
  | [] => none
  | v :: rest =>
    match argmaxPair rest with
    | none => some (v, 0)
    | some (m, r) => if v < m then some (m, r + 1) else some (v, 0)

/-- The index returned by `m, argm = output.data.squeeze().max(0)` followed
by `class_id = argm.item()` (cells 14 and 18). -/
def maxIdx (l : List ℚ) : Nat :=
  match argmaxPair l with
  | none => 0
  | some p => p.2

/-- Embeds `class_idx[str(class_id)]` applied to the argmax of the score
vector (cells 14 and 18). -/
def labelResolve (output : List ℚ) (classIdx : JVal) : Except PyErr JVal :=
  subscript classIdx (toString (maxIdx output))

/-- A decoded raster image (and equally a `C × H × W` tensor): channel
count, height, width, and a total pixel function `pix c i j`. -/
structure Img where
  channels : Nat
  h : Nat
  w : Nat
  pix : Nat → Nat → Nat → ℚ

/-- A single-channel (PIL mode `L`) image. -/
structure GrayImg where
  h : Nat
  w : Nat
  gpix : Nat → Nat → ℚ

/-- Embeds `img.convert('RGB')` (cells 9 and 16) on a grayscale image: PIL
replicates the single luminance channel into R, G and B. -/
def GrayImg.convertRGB (g : GrayImg) : Img :=
  ⟨3, g.h, g.w, fun _ i j => g.gpix i j⟩

/-- The output size of `transforms.Resize(size)` with an integer `size`
(torchvision `F.resize`): if the shorter side already equals `size` the
image is returned unchanged; otherwise the shorter side is scaled to `size`
and the longer side is scaled by the same ratio, truncated to an integer.
Returns `(height, width)`. -/
def resizeDims (size h w : Nat) : Nat × Nat :=
  if (w ≤ h ∧ w = size) ∨ (h ≤ w ∧ h = size) then (h, w)
  else if w < h then (size * h / w, size)
  else (size, size * w / h)

/-- Linear interpolation of a discretely sampled signal `f` of length `n`
at a continuous position `t`, with coordinate clamping at the borders. -/
def interp1 (n : Nat) (f : Nat → ℚ) (t : ℚ) : ℚ :=
  let t2 := max 0 (min t ((n : ℚ) - 1))
  let i0 := Int.toNat (Rat.floor t2)
  let i1 := min (i0 + 1) (n - 1)
  let frac := t2 - (i0 : ℚ)
  (1 - frac) * f i0 + frac * f i1

/-- PIL's rounding of an interpolated value to a `uint8` sample:
truncation of `v + 1/2` with clipping to `[0, 255]`. -/
def clip8 (v : ℚ) : ℚ :=
  ((max 0 (min 255 (Rat.floor (v + 1/2)))) : ℤ)

/-- Bilinear resampling of one channel from an `h × w` grid to an
`oh × ow` grid (PIL `BILINEAR`, used by `transforms.Resize`): every output
sample center is mapped back to source coordinates and interpolated from
its neighbours, channel by channel. -/
def resizeChannel (h w oh ow : Nat) (f : Nat → Nat → ℚ) (i j : Nat) : ℚ :=
  let sy := ((i : ℚ) + 1/2) * h / oh - 1/2
  let sx := ((j : ℚ) + 1/2) * w / ow - 1/2
  clip8 (interp1 h (fun y => interp1 w (fun x => f y x) sx) sy)

/-- Embeds `transforms.Resize(size)` (cell 12): shape change per
`resizeDims`, pixel content per channel-wise bilinear resampling. -/
def resizeImg (size : Nat) (m : Img) : Img :=
  let d := resizeDims size m.h m.w
  ⟨m.channels, d.1, d.2, fun c i j => resizeChannel m.h m.w d.1 d.2 (m.pix c) i j⟩

/-- Python's `round(d / 2.0)` for a natural `d` (the crop-offset formula
`int(round((size - crop) / 2.))` of torchvision's `CenterCrop`): exact when
`d` is even, banker's rounding of the half otherwise. -/
def pyRoundHalfDiv2 (d : Nat) : Nat :=
  if d % 2 = 0 then d / 2
  else if (d / 2) % 2 = 0 then d / 2 else d / 2 + 1

/-- Embeds `transforms.CenterCrop(csize)` (cell 12): a `csize × csize`
window whose top-left corner is centred, read channel by channel. -/
def centerCrop (csize : Nat) (m : Img) : Img :=
  let top := pyRoundHalfDiv2 (m.h - csize)
  let left := pyRoundHalfDiv2 (m.w - csize)
  ⟨m.channels, csize, csize, fun c i j => m.pix c (top + i) (left + j)⟩

/-- Embeds `transforms.ToTensor()` (cell 12): integer pixel values in
`0..255` are scaled to `[0, 1]` by division by 255. -/
def toTensor (m : Img) : Img :=
  ⟨m.channels, m.h, m.w, fun c i j => m.pix c i j / 255⟩

/-- The per-channel means `[0.485, 0.456, 0.406]` of cell 12. -/
def meanC : Nat → ℚ
  | 0 => 485/1000
  | 1 => 456/1000
  | _ => 406/1000

/-- The per-channel standard deviations `[0.229, 0.224, 0.225]` of cell 12. -/
def stdC : Nat → ℚ
  | 0 => 229/1000
  | 1 => 224/1000
  | _ => 225/1000

/-- Embeds `transforms.Normalize(mean, std)` (cell 12): channel-wise
standardization `(v - mean[c]) / std[c]`. -/
def normalizeT (m : Img) : Img :=
  ⟨m.channels, m.h, m.w, fun c i j => (m.pix c i j - meanC c) / stdC c⟩

/-- The transform `t = transforms.Compose([...])` of cell 12: resize to
shorter side 256, center-crop to 224, tensor conversion, normalization,
applied in that order. -/
def preprocCore (m : Img) : Img :=
  normalizeT (toTensor (centerCrop 224 (resizeImg 256 m)))

/-- Embeds `torch.Tensor(x).unsqueeze(0)` (cell 12): a leading batch
dimension of size 1. -/
def unsqueeze0 (m : Img) : Nat × Img :=
  (1, m)

/-- Embeds `def preproc(x)` of cell 12. Its first statement `x = img`
rebinds the parameter to the module-level global `img`, so the argument is
dead; the global is then run through the composed transform and batched.
The global is passed here as the explicit first argument `img`. -/
def preproc (img : Img) (x : Img) : Nat × Img :=
  let x := img
  unsqueeze0 (preprocCore x)

/-- Modelled from the spec: the pretrained classifier
(`torchvision.models.resnet.resnet152`) is an external artifact, "an
opaque, pretrained, frozen classifier" (§3). It is modelled as a training
flag, a parameter vector with its `requires_grad` flag, and an opaque
forward function from parameters and a batched input tensor to a score
vector. -/
structure Model where
  training : Bool
  params : List ℚ
  paramsRequireGrad : Bool
  forward : List ℚ → Nat × Img → List ℚ

/-- Embeds `resnet152(pretrained=True)` (cell 5) for externally supplied
weights `ps` and forward function `f`: a freshly constructed module is in
training mode and its pretrained parameters have `requires_grad = True`. -/
def resnet152 (ps : List ℚ) (f : List ℚ → Nat × Img → List ℚ) : Model :=
  ⟨true, ps, true, f⟩

/-- Embeds `.eval()` (cell 5): switches the module (and recursively all its
submodules) out of training mode; parameters are untouched. -/
def Model.eval (m : Model) : Model :=
  ⟨false, m.params, m.paramsRequireGrad, m.forward⟩

/-- The interpreter state the inference cells read: the global `img`, the
global `model`, the loaded `class_idx`, torch's global autograd mode
(enabled by default, and never changed by the notebook, which contains no
`torch.no_grad()`), and the process RNG state (never consumed by these
cells). -/
structure PyState where
  img : Img
  model : Model
  classIdx : JVal
  gradEnabled : Bool
  rngSeed : Nat

/-- What one inference cell produces: the score vector, whether the output
tensor carries a gradient graph (`output.requires_grad`), and the
interpreter state afterwards. -/
structure InferResult where
  output : List ℚ
  outputRequiresGrad : Bool
  state : PyState

/-- Embeds `output = model(preproc(img))` (cells 14 and 18): one forward
evaluation of the frozen model on the preprocessed global image. The
output records a gradient graph exactly when autograd is globally enabled
and the parameters require gradients; the forward pass in evaluation mode
updates neither the parameters nor any other component of the state. -/
def runInference (s : PyState) : InferResult :=
  let inp := preproc s.img s.img
  let out := s.model.forward s.model.params inp
  ⟨out, s.gradEnabled && s.model.paramsRequireGrad, s⟩

/-- The fixed example table entry and label pair of the spec's scenario. -/
def pair208 : JVal :=
  JVal.arr [JVal.str "n02109961", JVal.str "Eskimo_dog"]

/-- Following the spec's words for the grayscale property: the image
obtained by "replicating the single channel three times". -/
def replicate3 (g : GrayImg) : Img :=
  ⟨3, g.h, g.w, fun _ i j => g.gpix i j⟩

/-- The single-channel resize-then-crop pipeline: the grayscale channel
resized exactly as one channel of a 3-channel image would be, then read at
the centred crop offsets. -/
def gray1Resize (g : GrayImg) (i j : Nat) : ℚ :=
  let d := resizeDims 256 g.h g.w
  resizeChannel g.h g.w d.1 d.2 g.gpix
    (pyRoundHalfDiv2 (d.1 - 224) + i) (pyRoundHalfDiv2 (d.2 - 224) + j)

/-- A concrete 3-channel 500 × 375 image, for witnesses. -/
def demoImg : Img :=
  ⟨3, 500, 375, fun _ _ _ => 37⟩

/-- A concrete grayscale 300 × 400 image, for witnesses. -/
def demoGray : GrayImg :=
  ⟨300, 400, fun _ _ => 11⟩

/-- A concrete frozen model: loaded pretrained, then switched to
evaluation mode exactly as in cell 5. -/
def demoModel : Model :=
  (resnet152 [1, 2] (fun ps t => [ps.headD 0 + t.2.pix 0 0 0])).eval

/-- The concrete interpreter state right before cell 14 runs: image and
model loaded, label table bound, autograd in its enabled default. -/
def demoState : PyState :=
  ⟨demoImg, demoModel, JVal.obj [("208", pair208)], true, 0⟩

/-- A 209-element score vector whose unique maximum sits at index 208. -/
def v208 : List ℚ :=
  List.replicate 208 0 ++ [1]

lemma argmaxPair_ne_none (v : ℚ) (rest : List ℚ) : argmaxPair (v :: rest) ≠ none := by
  cases h : argmaxPair rest with
  | none => simp [argmaxPair, h]
  | some p =>
    simp only [argmaxPair, h]
    split <;> simp

lemma argmaxPair_spec (l : List ℚ) (m : ℚ) (r : Nat) (h : argmaxPair l = some (m, r)) :
    r < l.length ∧ l.getD r 0 = m ∧ (∀ j, j < l.length → l.getD j 0 ≤ m) ∧
    (∀ j, j < r → l.getD j 0 < m) := by
  induction l generalizing m r with
  | nil => simp [argmaxPair] at h
  | cons v rest ih =>
    simp only [argmaxPair] at h
    cases h2 : argmaxPair rest with
    | none =>
      rw [h2] at h
      simp only [Option.some.injEq, Prod.mk.injEq] at h
      obtain ⟨hm, hr⟩ := h
      subst hm
      subst hr
      have hrest : rest = [] := by
        cases rest with
        | nil => rfl
        | cons a t => exact absurd h2 (argmaxPair_ne_none a t)
      subst hrest
      refine ⟨by simp, by simp, ?_, fun j hj => absurd hj (Nat.not_lt_zero j)⟩
      intro j hj
      simp only [List.length_cons, List.length_nil, Nat.lt_succ_iff, Nat.le_zero] at hj
      subst hj
      simp
    | some p =>
      obtain ⟨mr, rr⟩ := p
      rw [h2] at h
      dsimp only at h
      obtain ⟨ih1, ih2, ih3, ih4⟩ := ih mr rr h2
      by_cases hv : v < mr
      · rw [if_pos hv] at h
        simp only [Option.some.injEq, Prod.mk.injEq] at h
        obtain ⟨hm, hr⟩ := h
        subst hm
        subst hr
        refine ⟨?_, ?_, ?_, ?_⟩
        · simp only [List.length_cons]
          omega
        · simpa using ih2
        · intro j hj
          cases j with
          | zero => simpa using le_of_lt hv
          | succ n =>
            simp only [List.getD_cons_succ]
            refine ih3 n ?_
            simpa using hj
        · intro j hj
          cases j with
          | zero => simpa using hv
          | succ n =>
            simp only [List.getD_cons_succ]
            exact ih4 n (by omega)
      · rw [if_neg hv] at h
        simp only [Option.some.injEq, Prod.mk.injEq] at h
        obtain ⟨hm, hr⟩ := h
        subst hm
        subst hr
        have hle : mr ≤ v := le_of_not_lt hv
        refine ⟨by simp, by simp, ?_, fun j hj => absurd hj (Nat.not_lt_zero j)⟩
        intro j hj
        cases j with
        | zero => simp
        | succ n =>
          simp only [List.getD_cons_succ]
          refine le_trans (ih3 n ?_) hle
          simpa using hj

lemma maxIdx_eq_of_unique (l : List ℚ) (k : Nat) (hk : k < l.length)
    (huniq : ∀ j, j < l.length → j ≠ k → l.getD j 0 < l.getD k 0) :
    maxIdx l = k := by
  cases h2 : argmaxPair l with
  | none =>
    cases l with
    | nil => simp at hk
    | cons a t => exact absurd h2 (argmaxPair_ne_none a t)
  | some p =>
    obtain ⟨m, r⟩ := p
    obtain ⟨h1, hgr, hmax, _⟩ := argmaxPair_spec l m r h2
    have hm : maxIdx l = r := by simp [maxIdx, h2]
    rw [hm]
    by_contra hrk
    have hlt : l.getD r 0 < l.getD k 0 := huniq r h1 hrk
    have hle : l.getD k 0 ≤ m := hmax k hk
    rw [hgr] at hlt
    exact absurd (lt_of_lt_of_le hlt hle) (lt_irrefl m)

lemma maxIdx_eq_zero_of_allEq (l : List ℚ) (hne : l ≠ [])
    (heq : ∀ j, j < l.length → l.getD j 0 = l.getD 0 0) :
    maxIdx l = 0 := by
  cases h2 : argmaxPair l with
  | none =>
    cases l with
    | nil => exact absurd rfl hne
    | cons a t => exact absurd h2 (argmaxPair_ne_none a t)
  | some p =>
    obtain ⟨m, r⟩ := p
    obtain ⟨h1, hgr, _, hfirst⟩ := argmaxPair_spec l m r h2
    have hm : maxIdx l = r := by simp [maxIdx, h2]
    rw [hm]
    by_contra hr0
    have hlt : l.getD 0 0 < m := hfirst 0 (Nat.pos_of_ne_zero hr0)
    have h0 : l.getD r 0 = l.getD 0 0 := heq r h1
    rw [hgr] at h0
    rw [h0] at hlt
    exact absurd hlt (lt_irrefl _)

lemma resizeDims_bounds (h w : Nat) (hh : 1 ≤ h) (hw : 1 ≤ w) :
    min (resizeDims 256 h w).1 (resizeDims 256 h w).2 = 256 ∧
    256 ≤ (resizeDims 256 h w).1 ∧ 256 ≤ (resizeDims 256 h w).2 := by
  unfold resizeDims
  split
  · rename_i hcase
    rcases hcase with ⟨hwh, hweq⟩ | ⟨hhw, hheq⟩
    · subst hweq
      simp only
      omega
    · subst hheq
      simp only
      omega
  · split
    · rename_i hlt
      have h1 : 256 ≤ 256 * h / w := by
        rw [Nat.le_div_iff_mul_le (by omega)]
        have : w ≤ h := le_of_lt hlt
        calc 256 * w ≤ 256 * h := Nat.mul_le_mul_left 256 this
          _ = 256 * h := rfl
      simp only
      omega
    · rename_i hn1 hn2
      have hhw : h ≤ w := le_of_not_lt hn2
      have h1 : 256 ≤ 256 * w / h := by
        rw [Nat.le_div_iff_mul_le (by omega)]
        exact Nat.mul_le_mul_left 256 hhw
      simp only
      omega

/-- C1: Label Resolution returns the index of the maximum element of the
score vector with ties broken by the lowest index: on a vector with a
unique maximum it returns that index, and on an all-equal (nonempty)
vector it returns index 0. -/
theorem maxIdx_argmax_semantics :
    (∀ (l : List ℚ) (k : Nat), k < l.length →
        (∀ j, j < l.length → j ≠ k → l.getD j 0 < l.getD k 0) → maxIdx l = k) ∧
    (∀ l : List ℚ, l ≠ [] → (∀ j, j < l.length → l.getD j 0 = l.getD 0 0) →
        maxIdx l = 0) :=
  ⟨maxIdx_eq_of_unique, maxIdx_eq_zero_of_allEq⟩

/-- Witness for C1 on concrete vectors: a unique maximum at index 1, and
an all-equal vector resolving to index 0. -/
theorem maxIdx_argmax_semantics_witness :
    maxIdx [(1 : ℚ), 3, 2] = 1 ∧ maxIdx [(5 : ℚ), 5, 5] = 0 :=
  ⟨maxIdx_argmax_semantics.1 [(1 : ℚ), 3, 2] 1 (by decide) (by decide),
   maxIdx_argmax_semantics.2 [(5 : ℚ), 5, 5] (by decide) (by decide)⟩

/-- C2: on every RGB image with positive dimensions the composed transform
produces a tensor of shape (3, 224, 224), whatever the input dimensions. -/
theorem preproc_shape (m : Img) (h3 : m.channels = 3) (hh : 1 ≤ m.h) (hw : 1 ≤ m.w) :
    (preprocCore m).channels = 3 ∧ (preprocCore m).h = 224 ∧ (preprocCore m).w = 224 :=
  ⟨h3, rfl, rfl⟩

/-- Witness for C2 on the concrete 3 × 500 × 375 image. -/
theorem preproc_shape_witness :
    demoImg.channels = 3 ∧ 1 ≤ demoImg.h ∧ 1 ≤ demoImg.w ∧
    (preprocCore demoImg).channels = 3 ∧ (preprocCore demoImg).h = 224 ∧
    (preprocCore demoImg).w = 224 :=
  ⟨rfl, by decide, by decide, preproc_shape demoImg rfl (by decide) (by decide)⟩

/-- C3 counterexample: loading a bare JSON array through the notebook's
loader raises nothing at all — `json.loads` hands the array back and it is
bound to `class_idx` unvalidated — whereas the spec's Label Table Loader
contract would reject the same document with a FormatError. -/
theorem loadClassIdx_bare_array_no_error :
    loadClassIdx (JVal.arr []) = Except.ok (JVal.arr []) ∧
    loadLabelTableSpec (JVal.arr []) = Except.error SpecErr.formatError :=
  ⟨rfl, rfl⟩

/-- C3 amended: loading the Label Table performs no shape validation and
never raises FormatError — any parsed JSON document, a bare array
included, is accepted and bound as is; a shape mismatch only surfaces
later, when subscription with a string key on the non-object value fails
with a TypeError. -/
theorem loadClassIdx_no_validation :
    (∀ doc : JVal, loadClassIdx doc = Except.ok doc) ∧
    (∀ (xs : List JVal) (k : String),
        subscript (JVal.arr xs) k = Except.error PyErr.typeError) :=
  ⟨fun _ => rfl, fun _ _ => rfl⟩

/-- C4: looking the predicted index up in the Label Table fails with a
`KeyError` — a subclass of Python's `LookupError` — whenever the
stringified index is outside the table's domain, and returns the stored
label pair whenever it is inside. -/
theorem labelTable_lookup (tbl : List (String × JVal)) (idx : Nat) :
    (tbl.lookup (toString idx) = none →
      subscript (JVal.obj tbl) (toString idx) = Except.error PyErr.keyError ∧
      PyErr.keyError.isLookupError = true) ∧
    (∀ v : JVal, tbl.lookup (toString idx) = some v →
      subscript (JVal.obj tbl) (toString idx) = Except.ok v) := by
  constructor
  · intro h
    exact ⟨by simp [subscript, h], rfl⟩
  · intro v h
    simp [subscript, h]

/-- Witness for C4 on a concrete one-entry table: index 1000 is outside
the domain and fails with a lookup error, index 208 is inside and returns
its pair. -/
theorem labelTable_lookup_witness :
    (subscript (JVal.obj [("208", pair208)]) (toString 1000) = Except.error PyErr.keyError ∧
      PyErr.keyError.isLookupError = true) ∧
    subscript (JVal.obj [("208", pair208)]) (toString 208) = Except.ok pair208 :=
  ⟨(labelTable_lookup [("208", pair208)] 1000).1 rfl,
   (labelTable_lookup [("208", pair208)] 208).2 pair208 rfl⟩

/-- C5: preprocessing followed by inference is deterministic — running the
inference cell a second time from the state the first run left behind
yields the same score vector, and the result is independent of the process
RNG state, since no stage draws randomness. -/
theorem inference_deterministic (s : PyState) (seed : Nat) :
    (runInference (runInference s).state).output = (runInference s).output ∧
    (runInference ⟨s.img, s.model, s.classIdx, s.gradEnabled, seed⟩).output =
      (runInference s).output :=
  ⟨rfl, rfl⟩

/-- C6 counterexample: in the state the notebook actually builds — model
loaded and put in evaluation mode, autograd left in its enabled default,
no `torch.no_grad()` anywhere — the inference call's output carries a
gradient graph, so gradient tracking is not disabled. -/
theorem inference_grad_counterexample :
    (runInference demoState).outputRequiresGrad = true :=
  rfl

/-- C6 amended: every inference call is a single forward evaluation of the
model in evaluation mode, and it updates neither the parameters nor any
other part of the interpreter state — the model stays frozen — but
gradient tracking is not disabled: the output tracks gradients exactly
when autograd is globally enabled (which the notebook never turns off) and
the pretrained parameters require gradients. -/
theorem inference_eval_frozen (s : PyState) (ps : List ℚ)
    (f : List ℚ → Nat × Img → List ℚ) :
    ((resnet152 ps f).eval).training = false ∧
    (runInference s).state.model.params = s.model.params ∧
    (runInference s).state = s ∧
    (runInference s).outputRequiresGrad = (s.gradEnabled && s.model.paramsRequireGrad) ∧
    (runInference s).output = s.model.forward s.model.params (preproc s.img s.img) :=
  ⟨rfl, rfl, rfl, rfl, rfl⟩

/-- C7: the composed transform applies its stages in order — resize so the
shorter side equals 256, center-crop to 224 × 224, scale pixel values by
1/255, then channel-wise standardization with the fixed means and
standard deviations: every output sample is the resized image read at the
centred crop offsets, scaled, shifted by the channel mean and divided by
the channel standard deviation. -/
theorem preproc_stage_order (m : Img) (c i j : Nat) (hh : 1 ≤ m.h) (hw : 1 ≤ m.w)
    (hc : c < 3) (hi : i < 224) (hj : j < 224) :
    min (resizeImg 256 m).h (resizeImg 256 m).w = 256 ∧
    (preprocCore m).pix c i j =
      ((resizeImg 256 m).pix c
          (pyRoundHalfDiv2 ((resizeImg 256 m).h - 224) + i)
          (pyRoundHalfDiv2 ((resizeImg 256 m).w - 224) + j) / 255 - meanC c) / stdC c :=
  ⟨(resizeDims_bounds m.h m.w hh hw).1, rfl⟩

/-- Witness for C7 at channel 0, position (0, 0) of the concrete image. -/
theorem preproc_stage_order_witness :
    min (resizeImg 256 demoImg).h (resizeImg 256 demoImg).w = 256 ∧
    (preprocCore demoImg).pix 0 0 0 =
      ((resizeImg 256 demoImg).pix 0
          (pyRoundHalfDiv2 ((resizeImg 256 demoImg).h - 224) + 0)
          (pyRoundHalfDiv2 ((resizeImg 256 demoImg).w - 224) + 0) / 255 - meanC 0) / stdC 0 :=
  preproc_stage_order demoImg 0 0 0 (by decide) (by decide) (by decide) (by decide) (by decide)

/-- C8: if the Label Table contains the entry mapping "208" to the pair
(n02109961, Eskimo_dog) and the score vector's maximum is (uniquely) at
index 208, Label Resolution returns that pair. -/
theorem labelResolve_scenario (v : List ℚ) (tbl : List (String × JVal))
    (hlen : 208 < v.length)
    (hmax : ∀ j, j < v.length → j ≠ 208 → v.getD j 0 < v.getD 208 0)
    (htbl : tbl.lookup "208" = some pair208) :
    labelResolve v (JVal.obj tbl) = Except.ok pair208 := by
  have h1 : maxIdx v = 208 := maxIdx_eq_of_unique v 208 hlen hmax
  have h2 : (toString (208 : Nat)) = "208" := rfl
  unfold labelResolve
  rw [h1, h2]
  simp [subscript, htbl]

set_option maxRecDepth 8000 in
/-- Witness for C8: a concrete 209-element score vector peaking at index
208, resolved through a concrete table holding the Eskimo_dog entry. -/
theorem labelResolve_scenario_witness :
    labelResolve v208 (JVal.obj [("208", pair208)]) = Except.ok pair208 :=
  labelResolve_scenario v208 [("208", pair208)] (by decide) (by decide) rfl

/-- C9: a grayscale image run through RGB coercion and then the composed
transform yields a 3-channel tensor in which every channel carries the
single luminance channel resized and cropped, then normalized with that
channel's constants — exactly the tensor obtained by replicating the
channel three times and applying the same pipeline. -/
theorem grayscale_replication (g : GrayImg) (c i j : Nat)
    (hc : c < 3) (hi : i < 224) (hj : j < 224) :
    (preprocCore g.convertRGB).channels = 3 ∧
    (preprocCore g.convertRGB).pix c i j = (gray1Resize g i j / 255 - meanC c) / stdC c ∧
    (preprocCore g.convertRGB).pix c i j = (preprocCore (replicate3 g)).pix c i j :=
  ⟨rfl, rfl, rfl⟩

/-- Witness for C9 at channel 2, position (5, 7) of the concrete
grayscale image. -/
theorem grayscale_replication_witness :
    (preprocCore demoGray.convertRGB).channels = 3 ∧
    (preprocCore demoGray.convertRGB).pix 2 5 7 =
      (gray1Resize demoGray 5 7 / 255 - meanC 2) / stdC 2 ∧
    (preprocCore demoGray.convertRGB).pix 2 5 7 =
      (preprocCore (replicate3 demoGray)).pix 2 5 7 :=
  grayscale_replication demoGray 2 5 7 (by decide) (by decide) (by decide)

/-- C10: `preproc` ignores its argument and reads the global `img`
instead — with the same global bound, any two argument values produce
identical results, and that result is exactly the batched transform of the
global image. -/
theorem preproc_ignores_argument (img a b : Img) :
    preproc img a = preproc img b ∧ preproc img a = unsqueeze0 (preprocCore img) :=
  ⟨rfl, rfl⟩

end PyConX
